import Mathlib

/-!
Shallow embedding of the `yoni/Graph` JavaScript library (src/Graph.js).

JavaScript values that the library's runtime checks can observe are modelled
by `JSValue`: the primitives `undefined`, `null`, booleans, (integer) numbers
and strings, and heap objects identified by a reference id (`obj id`), so that
JavaScript's `===` on this fragment coincides with structural equality of
`JSValue` (NaN, which is not `===` to itself, does not occur in any claim and
is omitted from the model).

The stateful entities `Edge` and `Graph` become structures; their constructors
and mutating methods become explicit state-passing functions returning
`Except String _` where the source may `throw`. The side-effect-free analysis
modules `graph` and `edge` become pure functions; `Run` variants additionally
thread every mutable argument through, returning it alongside the result,
mirroring that the source bodies contain no assignment to their arguments.
-/

inductive JSValue where
  | undef : JSValue
  | vnull : JSValue
  | bool : Bool → JSValue
  | num : Int → JSValue
  | str : String → JSValue
  | obj : Nat → JSValue
deriving DecidableEq, Repr

/-- JavaScript truthiness: `undefined`, `null`, `false`, `0`, `""` are falsy;
every object is truthy. -/
def truthy : JSValue → Bool
  | .undef => false
  | .vnull => false
  | .bool b => b
  | .num n => n != 0
  | .str s => s != ""
  | .obj _ => true

/-- JavaScript `typeof v == 'object'`. Note the language quirk
`typeof null == 'object'`: `null` passes this test. -/
def typeofIsObject : JSValue → Bool
  | .vnull => true
  | .obj _ => true
  | _ => false

/-- JavaScript strict equality `===` on the modelled fragment: value equality
on primitives, reference (id) equality on objects. -/
def strictEq (a b : JSValue) : Bool := a = b

/-- An `Edge` object: fields `v1`, `v2`, `directed` as stored by the
constructor `function Edge(v1, v2, directed)` (src/Graph.js:33-40). -/
structure Edge where
  v1 : JSValue
  v2 : JSValue
  directed : Bool
deriving DecidableEq, Repr

def edgeCtorErrMsg : String :=
  "Illegal arguments for constructing an Edge. Expected two vertices. Example: <code>var e = new Edge(v1, v2);</code>"

/-- The `Edge` constructor (src/Graph.js:33-40): throws when `(!v1) || (!v2)`,
i.e. when either endpoint argument is falsy; otherwise stores `v1`, `v2` and
the `directed` flag verbatim. -/
def EdgeCtor (v1 v2 : JSValue) (directed : Bool) : Except String Edge :=
  if (!truthy v1) || (!truthy v2) then .error edgeCtorErrMsg
  else .ok ⟨v1, v2, directed⟩

/-- A `Graph` object (src/Graph.js:50-118): arrays `V` and `E` plus the
closure variable `_directed`. In the source `_directed` is initialised to
`arguments.directed`, which is always `undefined` because the constructor
declares no parameter named `directed` and the `arguments` object only has
numeric keys; `undefined` is falsy, modelled as `false`. -/
structure Graph where
  V : List JSValue
  E : List Edge
  _directed : Bool
deriving DecidableEq, Repr

/-- The `Graph` constructor, applied to the (positional) argument a caller may
pass hoping to initialise directedness. The source reads
`arguments.directed`, which is `undefined` whatever is passed, so the
argument is ignored and `_directed` starts falsy. -/
def GraphCtor (_arg : Bool) : Graph := ⟨[], [], false⟩

/-- `this.directed = function(toggle)` (src/Graph.js:70-75): when `toggle` is
truthy it flips `_directed` (`_directed = !_directed`), then returns
`_directed`. Returns the result together with the updated graph state. -/
def Graph.directedM (toggle : Bool) (g : Graph) : Bool × Graph :=
  if toggle then (!g._directed, { g with _directed := !g._directed })
  else (g._directed, g)

def addVertexErrMsg : String := "A vertex must be an object."

/-- `this.addVertex = function(v)` (src/Graph.js:82-86): throws when
`typeof(v) != 'object'`, otherwise pushes `v` onto `V` (and returns `this`,
modelled by returning the updated state). -/
def Graph.addVertex (v : JSValue) (g : Graph) : Except String Graph :=
  if typeofIsObject v then .ok { g with V := g.V ++ [v] }
  else .error addVertexErrMsg

/-- `this.addVertices = function(V)` (src/Graph.js:92-97): `addVertex` on each
element in order; a thrown condition propagates. -/
def Graph.addVertices (L : List JSValue) (g : Graph) : Except String Graph :=
  L.foldlM (fun acc v => Graph.addVertex v acc) g

def addEdgeErrMsg : String := "Illegal argument. An edge must be incident on two vertices."

/-- `this.addEdge = function(e)` (src/Graph.js:102-106): throws when
`!e.v1 || !e.v2`, otherwise pushes `e` onto `E`. -/
def Graph.addEdge (e : Edge) (g : Graph) : Except String Graph :=
  if (!truthy e.v1) || (!truthy e.v2) then .error addEdgeErrMsg
  else .ok { g with E := g.E ++ [e] }

/-- `this.addEdges = function(E)` (src/Graph.js:111-116). -/
def Graph.addEdges (L : List Edge) (g : Graph) : Except String Graph :=
  L.foldlM (fun acc e => Graph.addEdge e acc) g

/-! The functional `edge` module (src/Graph.js:280-347). -/

/-- `edge.isLoop` (src/Graph.js:285-287): `e.v1 === e.v2`. -/
def edge.isLoop (e : Edge) : Bool := strictEq e.v1 e.v2

/-- `edge.isLink` (src/Graph.js:292-294): `!edge.isLoop(e)`. -/
def edge.isLink (e : Edge) : Bool := !edge.isLoop e

/-- `edge.equal` (src/Graph.js:300-314): if `e1.directed || e2.directed`,
exact order match on endpoints under `===`; otherwise match in either
order. -/
def edge.equal (e1 e2 : Edge) : Bool :=
  if e1.directed || e2.directed then
    strictEq e1.v1 e2.v1 && strictEq e1.v2 e2.v2
  else
    (strictEq e1.v1 e2.v1 && strictEq e1.v2 e2.v2)
      || (strictEq e1.v1 e2.v2 && strictEq e1.v2 e2.v1)

/-- `edge.multiplicity` (src/Graph.js:320-329): counter `m` over the loop
`for key in G.E { if (edge.equal(e2, e)) m++ }`. -/
def edge.multiplicity (e : Edge) (G : Graph) : Nat :=
  G.E.countP (fun e2 => edge.equal e2 e)

/-- `edge.isMultiple` (src/Graph.js:335-337). -/
def edge.isMultiple (e : Edge) (G : Graph) : Bool :=
  edge.multiplicity e G > 1

/-- `edge.isSimple` (src/Graph.js:344-346). -/
def edge.isSimple (e : Edge) (G : Graph) : Bool :=
  edge.multiplicity e G == 1

/-! The functional `graph` module (src/Graph.js:175-278). -/

/-- `graph.order` (src/Graph.js:180-182): `G.V.length`. -/
def graph.order (G : Graph) : Nat := G.V.length

/-- `graph.size` (src/Graph.js:190-192): `G.E.length`. -/
def graph.size (G : Graph) : Nat := G.E.length

/-- `graph.multiplicity` (src/Graph.js:200-208): `max = 0`, then for each edge
`if (max < eMultiplicity) max = eMultiplicity`. -/
def graph.multiplicity (G : Graph) : Nat :=
  G.E.foldl
    (fun mx e =>
      if mx < edge.multiplicity e G then edge.multiplicity e G else mx) 0

/-- `graph.hasLoops` (src/Graph.js:213-218): early-return `true` on the first
loop edge. -/
def graph.hasLoops (G : Graph) : Bool :=
  G.E.any edge.isLoop

/-- `graph.isSimple` (src/Graph.js:223-225):
`!(graph.hasLoops(G) || graph.isMulti(G))`, with `graph.isMulti` expanded as in
the source (`graph.multiplicity(G) != 1`). -/
def graph.isSimple (G : Graph) : Bool :=
  !(graph.hasLoops G || (graph.multiplicity G != 1))

/-- `graph.isMulti` (src/Graph.js:230-232): `graph.multiplicity(G) != 1`. -/
def graph.isMulti (G : Graph) : Bool :=
  graph.multiplicity G != 1

/-- `graph.isPseudo` (src/Graph.js:237-239). -/
def graph.isPseudo (G : Graph) : Bool :=
  graph.hasLoops G && (graph.multiplicity G != 1)

/-- `graph.containsEdge` (src/Graph.js:254-259): early-return `true` on the
first member `equal` to `e`, tested as `edge.equal(e, G.E[i])`. -/
def graph.containsEdge (G : Graph) (e : Edge) : Bool :=
  G.E.any (fun e2 => edge.equal e e2)

/-- `graph.isAntiEdge` (src/Graph.js:247-249): `!graph.containsEdge(G, e)`. -/
def graph.isAntiEdge (G : Graph) (e : Edge) : Bool :=
  !graph.containsEdge G e

/-- The body of the inner loop of `graph.complement` for one pair `(u, v)`:
`var e = new Edge(G.V[i], G.V[j]); if (graph.isAntiEdge(G,e)) C.addEdge(e);`
— the `directed` argument is absent, i.e. falsy. -/
def complementStep (G : Graph) (u v : JSValue) (C : Graph) :
    Except String Graph := do
  let e ← EdgeCtor u v false
  if graph.isAntiEdge G e then Graph.addEdge e C else pure C

/-- The inner loop of `graph.complement` for a fixed outer vertex `u`. -/
def graph.complementInner (G : Graph) (u : JSValue) (L : List JSValue)
    (C : Graph) : Except String Graph :=
  L.foldlM (fun C v => complementStep G u v C) C

/-- `graph.complement` (src/Graph.js:265-277): builds `C = new Graph()`,
`C.addVertices(G.V)`, then the double loop over `G.V × G.V` adding each
anti-edge candidate. -/
def graph.complement (G : Graph) : Except String Graph := do
  let C := GraphCtor false
  let C ← Graph.addVertices G.V C
  G.V.foldlM (fun C u => graph.complementInner G u G.V C) C

/-! Basic lemmas about the embedding. -/

theorem strictEq_iff (a b : JSValue) : strictEq a b = true ↔ a = b := by
  simp [strictEq]

theorem equal_refl (e : Edge) : edge.equal e e = true := by
  unfold edge.equal
  by_cases h : (e.directed || e.directed) = true <;>
    simp [h, strictEq]

theorem strictEq_symm (a b : JSValue) : strictEq a b = strictEq b a := by
  simp only [strictEq, decide_eq_decide]
  exact eq_comm

theorem equal_directed (e1 e2 : Edge) (h : (e1.directed || e2.directed) = true) :
    edge.equal e1 e2 = (strictEq e1.v1 e2.v1 && strictEq e1.v2 e2.v2) := by
  unfold edge.equal
  rw [if_pos h]

theorem equal_undirected (e1 e2 : Edge)
    (h : (e1.directed || e2.directed) = false) :
    edge.equal e1 e2 =
      ((strictEq e1.v1 e2.v1 && strictEq e1.v2 e2.v2)
        || (strictEq e1.v1 e2.v2 && strictEq e1.v2 e2.v1)) := by
  unfold edge.equal
  rw [if_neg (by simp [h])]

theorem equal_symm (e1 e2 : Edge) : edge.equal e1 e2 = edge.equal e2 e1 := by
  by_cases h : (e1.directed || e2.directed) = true
  · have h' : (e2.directed || e1.directed) = true := by rw [Bool.or_comm]; exact h
    rw [equal_directed e1 e2 h, equal_directed e2 e1 h',
      strictEq_symm e1.v1 e2.v1, strictEq_symm e1.v2 e2.v2]
  · have hb : (e1.directed || e2.directed) = false := by
      revert h
      rcases e1.directed || e2.directed <;> simp
    have hb' : (e2.directed || e1.directed) = false := by rw [Bool.or_comm]; exact hb
    rw [equal_undirected e1 e2 hb, equal_undirected e2 e1 hb',
      strictEq_symm e1.v1 e2.v1, strictEq_symm e1.v2 e2.v2,
      strictEq_symm e1.v1 e2.v2, strictEq_symm e1.v2 e2.v1,
      Bool.and_comm (strictEq e2.v2 e1.v1) (strictEq e2.v1 e1.v2)]

theorem foldl_if_max (L : List Nat) (a : Nat) :
    L.foldl (fun mx m => if mx < m then m else mx) a = max a (L.foldr max 0) := by
  induction L generalizing a with
  | nil => simp
  | cons x xs ih =>
    simp only [List.foldl_cons, List.foldr_cons, ih]
    rcases Nat.lt_or_ge a x with h | h
    · rw [if_pos h]
      omega
    · rw [if_neg (Nat.not_lt.mpr h)]
      omega

theorem addEdge_ok (e : Edge) (g : Graph) (h1 : truthy e.v1 = true)
    (h2 : truthy e.v2 = true) :
    Graph.addEdge e g = .ok { g with E := g.E ++ [e] } := by
  unfold Graph.addEdge
  rw [h1, h2]
  rfl

theorem addEdges_replicate (e : Edge) (k : Nat) (g : Graph)
    (h1 : truthy e.v1 = true) (h2 : truthy e.v2 = true) :
    Graph.addEdges (List.replicate k e) g
      = .ok { g with E := g.E ++ List.replicate k e } := by
  induction k generalizing g with
  | zero =>
    simp only [List.replicate_zero, List.append_nil]
    rfl
  | succ n ih =>
    have step : Graph.addEdges (List.replicate (n + 1) e) g
        = Graph.addEdges (List.replicate n e) { g with E := g.E ++ [e] } := by
      unfold Graph.addEdges
      rw [List.replicate_succ, List.foldlM_cons, addEdge_ok e g h1 h2]
      rfl
    rw [step, ih]
    congr 2
    simp [List.replicate_succ]

theorem countP_replicate_self (e : Edge) (k : Nat) :
    (List.replicate k e).countP (fun e2 => edge.equal e2 e) = k := by
  induction k with
  | zero => rfl
  | succ n ih =>
    rw [List.replicate_succ, List.countP_cons]
    simp [equal_refl, ih]

/-- C10: edge.equal is symmetric in its two arguments; consequently
`edge.multiplicity` (which tests `equal(e2, e)`) counts exactly the members
`equal(e, e2)`, and `graph.containsEdge` (which tests `equal(e, e2)`) detects
exactly the members with `equal(e2, e)`. -/
theorem equal_is_symmetric (e1 e2 : Edge) (G : Graph) :
    edge.equal e1 e2 = edge.equal e2 e1 ∧
    edge.multiplicity e1 G = G.E.countP (fun e2 => edge.equal e1 e2) ∧
    graph.containsEdge G e1 = G.E.any (fun e2 => edge.equal e2 e1) := by
  refine ⟨equal_symm e1 e2, ?_, ?_⟩
  · unfold edge.multiplicity
    exact List.countP_congr (fun x _ => by rw [equal_symm])
  · unfold graph.containsEdge
    congr 1
    funext x
    rw [equal_symm]

/-- C1: if at least one of the two edges declares `directed`, `edge.equal`
holds iff the endpoints match in order under `===` (reference equality); if
neither does, iff they match in order or in swapped order; in particular for
undirected-shaped `e1 = (u, v)`, `e2 = (v, u)` with distinct `u`, `v`,
`edge.equal e1 e2` is true iff neither flag is set. -/
theorem equal_branches (e1 e2 : Edge) (u v : JSValue) (d1 d2 : Bool) :
    ((e1.directed || e2.directed) = true →
      (edge.equal e1 e2 = true ↔ (e1.v1 = e2.v1 ∧ e1.v2 = e2.v2))) ∧
    ((e1.directed || e2.directed) = false →
      (edge.equal e1 e2 = true ↔
        ((e1.v1 = e2.v1 ∧ e1.v2 = e2.v2) ∨ (e1.v1 = e2.v2 ∧ e1.v2 = e2.v1)))) ∧
    (u ≠ v →
      (edge.equal ⟨u, v, d1⟩ ⟨v, u, d2⟩ = true ↔ (d1 = false ∧ d2 = false))) := by
  refine ⟨?_, ?_, ?_⟩
  · intro h
    rw [equal_directed e1 e2 h]
    simp [strictEq]
  · intro h
    rw [equal_undirected e1 e2 (by simp [h])]
    simp [strictEq]
  · intro huv
    rcases d1 <;> rcases d2
    · rw [equal_undirected ⟨u, v, false⟩ ⟨v, u, false⟩ rfl]
      simp [strictEq]
    · rw [equal_directed ⟨u, v, false⟩ ⟨v, u, true⟩ rfl]
      simp [strictEq, huv]
    · rw [equal_directed ⟨u, v, true⟩ ⟨v, u, false⟩ rfl]
      simp [strictEq, huv]
    · rw [equal_directed ⟨u, v, true⟩ ⟨v, u, true⟩ rfl]
      simp [strictEq, huv]

/-- Witness for C1: two distinct object vertices, both edges undirected and
oppositely ordered, compare equal. -/
theorem equal_branches_witness :
    edge.equal ⟨JSValue.obj 0, JSValue.obj 1, false⟩
      ⟨JSValue.obj 1, JSValue.obj 0, false⟩ = true :=
  ((equal_branches ⟨JSValue.obj 0, JSValue.obj 1, false⟩
      ⟨JSValue.obj 1, JSValue.obj 0, false⟩
      (JSValue.obj 0) (JSValue.obj 1) false false).2.2
    (by decide)).mpr ⟨rfl, rfl⟩

/-- C2 counterexample: the edgeless graph has no loops and multiplicity 0,
hence multiplicity ≤ 1, yet `graph.isSimple` returns `false` on it — refuting
the claim that `isSimple` is true whenever there are no loops and
multiplicity ≤ 1. -/
theorem isSimple_empty_counterexample :
    graph.hasLoops (GraphCtor false) = false ∧
    graph.multiplicity (GraphCtor false) ≤ 1 ∧
    graph.isSimple (GraphCtor false) = false := by decide

/-- C2 amended: `graph.isSimple G` is true iff `G` has no loops and
`graph.multiplicity G` equals exactly 1 (so an edgeless graph, of
multiplicity 0, is not classified simple). -/
theorem isSimple_iff (G : Graph) :
    graph.isSimple G = true ↔
      (graph.hasLoops G = false ∧ graph.multiplicity G = 1) := by
  unfold graph.isSimple
  rcases h : graph.hasLoops G <;> simp [h]

/-- C3: `graph.isMulti G` is true iff `graph.multiplicity G ≠ 1`, where
`graph.multiplicity G` is the maximum, over the edges of `G.E`, of each
edge's multiplicity within `G` (0 when `G.E` is empty); hence an edgeless
graph is classified multi. -/
theorem isMulti_spec (G : Graph) :
    (graph.isMulti G = true ↔ graph.multiplicity G ≠ 1) ∧
    graph.multiplicity G
      = (G.E.map (fun e => edge.multiplicity e G)).foldr max 0 ∧
    (G.E = [] → graph.multiplicity G = 0 ∧ graph.isMulti G = true) := by
  have hmax : graph.multiplicity G
      = (G.E.map (fun e => edge.multiplicity e G)).foldr max 0 := by
    unfold graph.multiplicity
    rw [← List.foldl_map (fun e => edge.multiplicity e G)
      (fun mx m => if mx < m then m else mx), foldl_if_max]
    simp
  refine ⟨by simp [graph.isMulti], hmax, fun h => ⟨?_, ?_⟩⟩
  · rw [hmax, h]
    rfl
  · unfold graph.isMulti
    rw [hmax, h]
    rfl

/-- Witness for C3 at the edgeless graph. -/
theorem isMulti_spec_witness :
    graph.multiplicity (GraphCtor false) = 0 ∧
    graph.isMulti (GraphCtor false) = true :=
  (isMulti_spec (GraphCtor false)).2.2 rfl

/-- C5: `edge.multiplicity e G` is the number of entries of `G.E` that are
`edge.equal` to `e`, so it lies in `0..|G.E|`; and adding the same edge
object `k` times to an empty graph succeeds and yields multiplicity exactly
`k`. -/
theorem multiplicity_counts (e : Edge) (G : Graph) (k : Nat) :
    edge.multiplicity e G = (G.E.filter (fun e2 => edge.equal e e2)).length ∧
    edge.multiplicity e G ≤ G.E.length ∧
    (truthy e.v1 = true → truthy e.v2 = true →
      Graph.addEdges (List.replicate k e) (GraphCtor false)
          = .ok ⟨[], List.replicate k e, false⟩ ∧
      edge.multiplicity e ⟨[], List.replicate k e, false⟩ = k) := by
  refine ⟨?_, List.countP_le_length _, fun h1 h2 => ⟨?_, ?_⟩⟩
  · unfold edge.multiplicity
    rw [List.countP_eq_length_filter]
    congr 1
    exact List.filter_congr (fun x _ => by rw [equal_symm])
  · rw [addEdges_replicate e k (GraphCtor false) h1 h2]
    rfl
  · unfold edge.multiplicity
    exact countP_replicate_self e k

/-- Witness for C5: a concrete undirected edge added three times to an empty
graph has multiplicity 3 there. -/
theorem multiplicity_counts_witness :
    Graph.addEdges
        (List.replicate 3 ⟨JSValue.obj 0, JSValue.obj 1, false⟩)
        (GraphCtor false)
      = .ok ⟨[], List.replicate 3 ⟨JSValue.obj 0, JSValue.obj 1, false⟩, false⟩ ∧
    edge.multiplicity ⟨JSValue.obj 0, JSValue.obj 1, false⟩
      ⟨[], List.replicate 3 ⟨JSValue.obj 0, JSValue.obj 1, false⟩, false⟩ = 3 :=
  (multiplicity_counts ⟨JSValue.obj 0, JSValue.obj 1, false⟩
    (GraphCtor false) 3).2.2 rfl rfl

theorem ok_bind {ε α β : Type} (a : α) (f : α → Except ε β) :
    ((Except.ok a : Except ε α) >>= f) = f a := rfl

/-- C6: evaluating the code at the failing input `new Graph(true)`: the
graph-level flag starts falsy despite the `true` argument (the constructor
reads `arguments.directed`, which is always `undefined`), `G.directed()`
reports it false, and a later `G.directed(true)` call flips the flag — so the
flag neither equals the supplied argument nor is fixed after construction. -/
theorem graphCtor_ignores_argument :
    (GraphCtor true)._directed = false ∧
    (Graph.directedM false (GraphCtor true)).1 = false ∧
    (Graph.directedM true (GraphCtor true)).1 = true ∧
    ((Graph.directedM true (GraphCtor true)).2)._directed = true := by
  refine ⟨rfl, rfl, rfl, rfl⟩

/-- C7 counterexample: `new Edge(0, v)` throws although the number `0` is
neither absent (`undefined`) nor `null` — the constructor tests JavaScript
falsiness, not absence. -/
theorem edgeCtor_zero_counterexample :
    EdgeCtor (JSValue.num 0) (JSValue.obj 1) false = .error edgeCtorErrMsg ∧
    JSValue.num 0 ≠ JSValue.undef ∧ JSValue.num 0 ≠ JSValue.vnull :=
  ⟨rfl, by decide, by decide⟩

/-- C7 amended: the `Edge` constructor throws exactly when `v1` or `v2` is
falsy (absent and `null` are falsy, but so are `0`, `""` and `false`);
otherwise it stores `v1`, `v2` and the `directed` flag verbatim; and
`edge.isLoop e` is true iff `e.v1` and `e.v2` are the same reference. -/
theorem edgeCtor_isLoop_spec (v1 v2 : JSValue) (d : Bool) (e : Edge) :
    ((truthy v1 = false ∨ truthy v2 = false) →
      EdgeCtor v1 v2 d = .error edgeCtorErrMsg) ∧
    (truthy v1 = true → truthy v2 = true →
      EdgeCtor v1 v2 d = .ok ⟨v1, v2, d⟩) ∧
    (edge.isLoop e = true ↔ e.v1 = e.v2) := by
  refine ⟨?_, ?_, ?_⟩
  · intro h
    unfold EdgeCtor
    rcases h with h | h <;> rw [h] <;> simp
  · intro h1 h2
    unfold EdgeCtor
    rw [h1, h2]
    rfl
  · simp [edge.isLoop, strictEq]

/-- Witness for C7: a `null` endpoint throws; two object endpoints
construct, storing the fields verbatim. -/
theorem edgeCtor_isLoop_spec_witness :
    EdgeCtor JSValue.vnull (JSValue.obj 0) false = .error edgeCtorErrMsg ∧
    EdgeCtor (JSValue.obj 0) (JSValue.obj 1) true
      = .ok ⟨JSValue.obj 0, JSValue.obj 1, true⟩ :=
  ⟨(edgeCtor_isLoop_spec JSValue.vnull (JSValue.obj 0) false
      ⟨JSValue.obj 0, JSValue.obj 0, false⟩).1 (Or.inl rfl),
   (edgeCtor_isLoop_spec (JSValue.obj 0) (JSValue.obj 1) true
      ⟨JSValue.obj 0, JSValue.obj 0, false⟩).2.1 rfl rfl⟩

/-- C8 counterexample: `addVertex(null)` succeeds and appends `null`
(JavaScript's `typeof null == 'object'`), although the claim says a `null`
argument raises `InvalidArgument`. -/
theorem addVertex_null_counterexample :
    Graph.addVertex JSValue.vnull (GraphCtor false)
      = .ok ⟨[JSValue.vnull], [], false⟩ := rfl

/-- C8 amended: `addVertex v` throws exactly when `typeof v != 'object'`
(numbers, strings, booleans and `undefined` throw; `null` passes, since
`typeof null == 'object'`); on success it appends `v` to `V`, increasing
`graph.order` by exactly 1 regardless of whether `v` was already present. -/
theorem addVertex_spec (v : JSValue) (g : Graph) :
    (typeofIsObject v = false →
      Graph.addVertex v g = .error addVertexErrMsg) ∧
    (typeofIsObject v = true →
      Graph.addVertex v g = .ok { g with V := g.V ++ [v] } ∧
      ∀ g2, Graph.addVertex v g = .ok g2 →
        graph.order g2 = graph.order g + 1) := by
  refine ⟨?_, fun h => ⟨?_, ?_⟩⟩
  · intro h
    unfold Graph.addVertex
    rw [h]
    rfl
  · unfold Graph.addVertex
    rw [h]
    rfl
  · intro g2 hg2
    unfold Graph.addVertex at hg2
    rw [h] at hg2
    simp only [if_true] at hg2
    cases hg2
    simp [graph.order]

/-- Witness for C8: a number throws; an object vertex is appended. -/
theorem addVertex_spec_witness :
    Graph.addVertex (JSValue.num 5) (GraphCtor false) = .error addVertexErrMsg ∧
    Graph.addVertex (JSValue.obj 0) (GraphCtor false)
      = .ok ⟨[JSValue.obj 0], [], false⟩ :=
  ⟨(addVertex_spec (JSValue.num 5) (GraphCtor false)).1 rfl,
   ((addVertex_spec (JSValue.obj 0) (GraphCtor false)).2 rfl).1⟩

/-- The undirected candidate edges produced for the outer vertex `u` against
the vertices of `L` that survive the anti-edge test of `G`, in iteration
order. -/
def antiCandidates (G : Graph) (u : JSValue) (L : List JSValue) : List Edge :=
  (L.filter (fun v => graph.isAntiEdge G ⟨u, v, false⟩)).map
    (fun v => Edge.mk u v false)

/-- All candidate edges the complement's double loop adds, in iteration
order: for each outer `u` in `L`, the surviving candidates against `G.V`. -/
def allAntiCandidates (G : Graph) (L : List JSValue) : List Edge :=
  L.flatMap (fun u => antiCandidates G u G.V)

theorem addVertices_ok (L : List JSValue) (g : Graph)
    (h : ∀ v ∈ L, typeofIsObject v = true) :
    Graph.addVertices L g = .ok { g with V := g.V ++ L } := by
  induction L generalizing g with
  | nil =>
    simp only [List.append_nil]
    rfl
  | cons x xs ih =>
    have hx := h x (List.mem_cons_self x xs)
    have step : Graph.addVertices (x :: xs) g
        = Graph.addVertices xs { g with V := g.V ++ [x] } := by
      unfold Graph.addVertices
      rw [List.foldlM_cons]
      unfold Graph.addVertex
      rw [hx]
      rfl
    rw [step, ih _ (fun v hv => h v (List.mem_cons_of_mem x hv))]
    congr 2
    simp

theorem complementStep_ok (G : Graph) (u v : JSValue) (C : Graph)
    (hu : truthy u = true) (hv : truthy v = true) :
    complementStep G u v C
      = .ok (if graph.isAntiEdge G ⟨u, v, false⟩ then
          { C with E := C.E ++ [⟨u, v, false⟩] } else C) := by
  unfold complementStep EdgeCtor
  rw [hu, hv]
  show (if graph.isAntiEdge G ⟨u, v, false⟩ = true then
      Graph.addEdge ⟨u, v, false⟩ C else pure C) = _
  by_cases h : graph.isAntiEdge G ⟨u, v, false⟩ = true
  · rw [if_pos h, if_pos h]
    exact addEdge_ok ⟨u, v, false⟩ C hu hv
  · rw [if_neg h, if_neg h]
    rfl

theorem complementInner_ok (G : Graph) (u : JSValue) (L : List JSValue)
    (C : Graph) (hu : truthy u = true) (hL : ∀ v ∈ L, truthy v = true) :
    graph.complementInner G u L C
      = .ok { C with E := C.E ++ antiCandidates G u L } := by
  induction L generalizing C with
  | nil =>
    simp only [antiCandidates, List.filter_nil, List.map_nil, List.append_nil]
    rfl
  | cons x xs ih =>
    have hx := hL x (List.mem_cons_self x xs)
    have hxs : ∀ v ∈ xs, truthy v = true :=
      fun v hv => hL v (List.mem_cons_of_mem x hv)
    have step : graph.complementInner G u (x :: xs) C
        = complementStep G u x C >>= fun C2 =>
            graph.complementInner G u xs C2 := by
      unfold graph.complementInner
      rw [List.foldlM_cons]
    rw [step, complementStep_ok G u x C hu hx]
    by_cases h : graph.isAntiEdge G ⟨u, x, false⟩ = true
    · rw [if_pos h, ok_bind, ih _ hxs]
      simp [antiCandidates, List.filter_cons, h]
    · have h' : graph.isAntiEdge G ⟨u, x, false⟩ = false := by
        revert h
        rcases graph.isAntiEdge G ⟨u, x, false⟩ <;> simp
      rw [if_neg h, ok_bind, ih _ hxs]
      simp [antiCandidates, List.filter_cons, h']

theorem complementOuter_ok (G : Graph) (L : List JSValue) (C : Graph)
    (hL : ∀ v ∈ L, truthy v = true) (hV : ∀ v ∈ G.V, truthy v = true) :
    L.foldlM (fun C u => graph.complementInner G u G.V C) C
      = .ok { C with E := C.E ++ allAntiCandidates G L } := by
  induction L generalizing C with
  | nil =>
    simp only [allAntiCandidates, List.flatMap_nil, List.append_nil]
    rfl
  | cons x xs ih =>
    have hx := hL x (List.mem_cons_self x xs)
    have hxs : ∀ v ∈ xs, truthy v = true :=
      fun v hv => hL v (List.mem_cons_of_mem x hv)
    rw [List.foldlM_cons, complementInner_ok G x G.V C hx hV, ok_bind, ih _ hxs]
    unfold allAntiCandidates
    rw [List.flatMap_cons]
    simp

/-- C4: for a graph whose vertex list holds object vertices,
`graph.complement` returns a new graph sharing `G`'s vertex list (the same
references, in the same order) whose edge list consists, following the
`V × V` iteration order, of exactly those undirected candidates `(u, v)` —
including `u = v` and both orders of each pair of distinct vertices — that
are anti-edges of `G`. -/
theorem complement_spec (G : Graph)
    (h : ∀ v ∈ G.V, ∃ i, v = JSValue.obj i) :
    graph.complement G = .ok ⟨G.V, allAntiCandidates G G.V, false⟩ := by
  have htr : ∀ v ∈ G.V, truthy v = true := by
    intro v hv
    obtain ⟨i, rfl⟩ := h v hv
    rfl
  have hobj : ∀ v ∈ G.V, typeofIsObject v = true := by
    intro v hv
    obtain ⟨i, rfl⟩ := h v hv
    rfl
  show Graph.addVertices G.V (GraphCtor false) >>= _ = _
  rw [addVertices_ok G.V (GraphCtor false) hobj, ok_bind,
    complementOuter_ok G G.V _ htr htr]
  simp [GraphCtor]

/-- Witness for C4: the two-vertex edgeless graph; its complement holds all
four ordered/self candidate edges, in iteration order. -/
theorem complement_spec_witness :
    graph.complement ⟨[JSValue.obj 0, JSValue.obj 1], [], false⟩
      = .ok ⟨[JSValue.obj 0, JSValue.obj 1],
          [⟨JSValue.obj 0, JSValue.obj 0, false⟩,
           ⟨JSValue.obj 0, JSValue.obj 1, false⟩,
           ⟨JSValue.obj 1, JSValue.obj 0, false⟩,
           ⟨JSValue.obj 1, JSValue.obj 1, false⟩],
          false⟩ := by
  rw [complement_spec ⟨[JSValue.obj 0, JSValue.obj 1], [], false⟩ (by
    intro v hv
    simp only [List.mem_cons, List.not_mem_nil, or_false] at hv
    rcases hv with rfl | rfl
    · exact ⟨0, rfl⟩
    · exact ⟨1, rfl⟩)]
  rfl

/-!
State-passing (`Run`) forms of the analysis functions. Each receives its
graph/edge arguments as mutable state, the way the JavaScript functions
receive object references, and returns that state next to the result. The
bodies of the source functions (src/Graph.js:175-347) contain reads of
`G.V`, `G.E` and edge fields but no assignment to them, so the state out is
the state in.
-/

def graph.orderRun (G : Graph) : Nat × Graph := (G.V.length, G)

def graph.sizeRun (G : Graph) : Nat × Graph := (G.E.length, G)

def graph.multiplicityRun (G : Graph) : Nat × Graph :=
  (graph.multiplicity G, G)

def graph.hasLoopsRun (G : Graph) : Bool × Graph := (graph.hasLoops G, G)

def graph.isSimpleRun (G : Graph) : Bool × Graph := (graph.isSimple G, G)

def graph.isMultiRun (G : Graph) : Bool × Graph := (graph.isMulti G, G)

def graph.isPseudoRun (G : Graph) : Bool × Graph := (graph.isPseudo G, G)

def graph.containsEdgeRun (G : Graph) (e : Edge) : Bool × Graph × Edge :=
  (graph.containsEdge G e, G, e)

def graph.isAntiEdgeRun (G : Graph) (e : Edge) : Bool × Graph × Edge :=
  (graph.isAntiEdge G e, G, e)

def graph.complementRun (G : Graph) : Except String Graph × Graph :=
  (graph.complement G, G)

def edge.isLoopRun (e : Edge) : Bool × Edge := (edge.isLoop e, e)

def edge.isLinkRun (e : Edge) : Bool × Edge := (edge.isLink e, e)

def edge.equalRun (e1 e2 : Edge) : Bool × Edge × Edge :=
  (edge.equal e1 e2, e1, e2)

def edge.multiplicityRun (e : Edge) (G : Graph) : Nat × Edge × Graph :=
  (edge.multiplicity e G, e, G)

/-- C9: every analysis function, in state-passing form, hands back its graph
and edge arguments exactly as received — `G.V` and `G.E` hold the same
entries in the same order after any call, and in particular `complement`
never mutates `G` (it only populates the freshly constructed graph it
returns). -/
theorem analysis_preserves_arguments (G : Graph) (e e1 e2 : Edge) :
    (graph.orderRun G).2 = G ∧ (graph.sizeRun G).2 = G ∧
    (graph.multiplicityRun G).2 = G ∧ (graph.hasLoopsRun G).2 = G ∧
    (graph.isSimpleRun G).2 = G ∧ (graph.isMultiRun G).2 = G ∧
    (graph.isPseudoRun G).2 = G ∧ (graph.containsEdgeRun G e).2 = (G, e) ∧
    (graph.isAntiEdgeRun G e).2 = (G, e) ∧ (graph.complementRun G).2 = G ∧
    (edge.isLoopRun e).2 = e ∧ (edge.isLinkRun e).2 = e ∧
    (edge.equalRun e1 e2).2 = (e1, e2) ∧
    (edge.multiplicityRun e G).2 = (e, G) :=
  ⟨rfl, rfl, rfl, rfl, rfl, rfl, rfl, rfl, rfl, rfl, rfl, rfl, rfl, rfl⟩
